import Mathlib

/-!
Verification of the botpress-messenger connector (src/messenger.js and
src/src/users.js) against its natural-language specification.

The JavaScript source is shallowly embedded: pure helpers become Lean
functions; the webhook dispatch loop becomes a function from an inbound
batch to the ordered list of emitted event names; the promise-returning
network layer becomes functions from an explicit fetch outcome to a
promise result; the user-profile cache becomes explicit state passing
with an effect trace.
-/

namespace Messenger

/-! ## String normalization (messenger.js, `normalizeString`)

JS source: `str.replace(/[^a-zA-Z0-9]+/g, '').toUpperCase()` -
drop every character outside ASCII `[a-zA-Z0-9]`, then uppercase.
-/

/-- A character matched by the JS character class `[a-zA-Z0-9]`
(code points 97-122 for `a-z`, 65-90 for `A-Z`, 48-57 for `0-9`). -/
def isAsciiAlnum (c : Char) : Bool :=
  (97 ≤ c.toNat && c.toNat ≤ 122) || (65 ≤ c.toNat && c.toNat ≤ 90) ||
    (48 ≤ c.toNat && c.toNat ≤ 57)

/-- List-level body of `normalizeString`: filter the alphanumerics, then
uppercase each survivor. `Char.toUpper` agrees with JS
`String.prototype.toUpperCase` on the ASCII range: lowercase latin
letters map down by 32, everything else is unchanged. -/
def normalizeChars (l : List Char) : List Char :=
  (l.filter isAsciiAlnum).map Char.toUpper

/-- messenger.js `normalizeString`. -/
def normalizeString (s : String) : String :=
  String.mk (normalizeChars s.data)

/-! ## Button / quick-reply formatting (messenger.js, `_formatButtons`,
`_formatQuickReplies`) -/

/-- A JS object that may carry `type` / `title` / `payload` /
`content_type` fields; `none` models an absent field. -/
structure BtnObj where
  type : Option String
  title : Option String
  payload : Option String
  content_type : Option String
  deriving DecidableEq, Repr

/-- An element of the array passed to `_formatButtons` /
`_formatQuickReplies`: a string, an object, or a nullish value. -/
inductive BtnIn where
  | str (s : String)
  | obj (b : BtnObj)
  | nullish
  deriving DecidableEq, Repr

/-- JS truthiness of `button.title` after `button &&` guard. -/
def titleTruthy : BtnIn → Bool
  | .obj b => match b.title with
    | some t => !t.isEmpty
    | none => false
  | _ => false

/-- The empty object `{}` returned on the fall-through branch. -/
def emptyBtnObj : BtnObj := ⟨none, none, none, none⟩

/-- messenger.js `_formatButtons`, mapped over one element.
A string becomes a postback button with a derived payload; an object
with a truthy `title` passes through unchanged; anything else becomes
the empty object. -/
def formatButton : BtnIn → BtnObj
  | .str s => ⟨some "postback", some s, some ("BOOTBOT_BUTTON_" ++ normalizeString s), none⟩
  | .obj b => if titleTruthy (.obj b) then b else emptyBtnObj
  | .nullish => emptyBtnObj

/-- messenger.js `_formatButtons` on a present (non-nullish) array. -/
def formatButtons (buttons : List BtnIn) : List BtnObj :=
  buttons.map formatButton

/-- messenger.js `_formatQuickReplies`, mapped over one element. -/
def formatQuickReply : BtnIn → BtnObj
  | .str s => ⟨none, some s, some ("BOOTBOT_QR_" ++ normalizeString s), some "text"⟩
  | .obj b =>
    if titleTruthy (.obj b) then
      ⟨none, b.title,
        some ((b.payload.filter (fun p => !p.isEmpty)).getD
          ("BOOTBOT_QR_" ++ normalizeString (b.title.getD ""))),
        some ((b.content_type.filter (fun c => !c.isEmpty)).getD "text")⟩
    else emptyBtnObj
  | .nullish => emptyBtnObj

end Messenger

namespace Messenger

/-! ## Theorems about normalization and formatting -/

theorem toNat_ofNat_of_valid (n : Nat) (h : n.isValidChar) :
    (Char.ofNat n).toNat = n := by
  rw [Char.ofNat, dif_pos h]
  rfl

theorem char_eq_of_toNat_eq {a b : Char} (h : a.toNat = b.toNat) : a = b := by
  apply Char.eq_of_val_eq
  apply UInt32.eq_of_toBitVec_eq
  exact BitVec.eq_of_toNat_eq h

theorem toNat_toUpper (c : Char) :
    c.toUpper.toNat =
      if 97 ≤ c.toNat ∧ c.toNat ≤ 122 then c.toNat - 32 else c.toNat := by
  by_cases h : 97 ≤ c.toNat ∧ c.toNat ≤ 122
  · have hv : (c.toNat - 32).isValidChar := Or.inl (by omega)
    rw [if_pos h]
    show (if c.toNat ≥ 97 ∧ c.toNat ≤ 122 then Char.ofNat (c.toNat - 32) else c).toNat = _
    rw [if_pos ⟨h.1, h.2⟩]
    exact toNat_ofNat_of_valid _ hv
  · rw [if_neg h]
    show (if c.toNat ≥ 97 ∧ c.toNat ≤ 122 then Char.ofNat (c.toNat - 32) else c).toNat = _
    rw [if_neg (fun hc => h ⟨hc.1, hc.2⟩)]

theorem isAsciiAlnum_toUpper (c : Char) (h : isAsciiAlnum c = true) :
    isAsciiAlnum c.toUpper = true := by
  simp only [isAsciiAlnum, Bool.or_eq_true, Bool.and_eq_true,
    decide_eq_true_eq] at h ⊢
  rw [toNat_toUpper]
  split
  all_goals omega

theorem toUpper_idem (c : Char) : c.toUpper.toUpper = c.toUpper := by
  apply char_eq_of_toNat_eq
  rw [toNat_toUpper c.toUpper, toNat_toUpper c]
  by_cases h : 97 ≤ c.toNat ∧ c.toNat ≤ 122
  · simp only [if_pos h]
    rw [if_neg (by omega)]
  · simp only [if_neg h]

theorem filter_normalizeChars (l : List Char) :
    (normalizeChars l).filter isAsciiAlnum = normalizeChars l := by
  unfold normalizeChars
  induction l with
  | nil => rfl
  | cons c t ih =>
    by_cases hc : isAsciiAlnum c = true
    · simp only [List.filter_cons, hc, if_pos, List.map_cons,
        isAsciiAlnum_toUpper c hc, ih]
    · simp only [List.filter_cons, hc]
      exact ih

theorem normalizeChars_idem (l : List Char) :
    normalizeChars (normalizeChars l) = normalizeChars l := by
  rw [normalizeChars, filter_normalizeChars]
  unfold normalizeChars
  induction l with
  | nil => rfl
  | cons c t ih =>
    by_cases hc : isAsciiAlnum c = true
    · simp only [List.filter_cons, hc, if_pos, List.map_cons, toUpper_idem, ih]
    · simp only [List.filter_cons, hc]
      exact ih

/-- Claim C9: `_formatButtons` on the one-element array `["Yes"]` yields a
single postback button titled `Yes` whose payload is the fixed prefix
`BOOTBOT_BUTTON_` followed by the normalized title, and
`normalizeString "Yes, please!"` strips every non-alphanumeric character
and uppercases the rest, yielding `YESPLEASE`. -/
theorem formatButtons_yes_normalize_please :
    formatButtons [.str "Yes"] =
      [⟨some "postback", some "Yes", some "BOOTBOT_BUTTON_YES", none⟩]
    ∧ normalizeString "Yes, please!" = "YESPLEASE" := by
  constructor
  · decide
  · decide

/-- Claim C10: the label-normalization function is idempotent - its output
consists only of uppercase ASCII alphanumerics, each of which it maps to
itself. -/
theorem normalizeString_idem (s : String) :
    normalizeString (normalizeString s) = normalizeString s := by
  show String.mk (normalizeChars (normalizeChars s.data)) = String.mk (normalizeChars s.data)
  exact congrArg String.mk (normalizeChars_idem s.data)

/-! ## Webhook event dispatch (messenger.js, `_initWebhook` and the
`_handle*Event` helpers)

An inbound messaging event is a JS object that may carry `optin`,
`message`, `postback`, `delivery`, `read` and `account_linking` fields.
Dispatching an event means calling `this.emit(name, ...)`; we record the
ordered list of emitted event names.
-/

/-- The `message` sub-object of an inbound event. `text` is the JS string
(`""` models both an absent and an empty, hence falsy, `text`);
`quick_reply = some p` models a present `quick_reply` object whose
`payload` is `p` (`p = ""` models a falsy payload); `attachments` is the
truthiness of the `attachments` field. -/
structure MessageField where
  text : String
  is_echo : Bool
  quick_reply : Option String
  attachments : Bool
  deriving DecidableEq, Repr

/-- One element of an `entry.messaging` array. `postback = some p` models
a present `postback` object with `payload` `p` (`p = ""` falsy). The
Bool fields model JS truthiness of the corresponding fields. -/
structure WebhookEvent where
  optin : Bool
  message : Option MessageField
  postback : Option String
  delivery : Bool
  read : Bool
  account_linking : Bool
  deriving DecidableEq, Repr

/-- Truthiness of `event.message && event.message.is_echo`. -/
def msgIsEcho (e : WebhookEvent) : Bool :=
  match e.message with
  | some m => m.is_echo
  | none => false

/-- Truthiness of `event.message && event.message.text`. -/
def msgHasText (e : WebhookEvent) : Bool :=
  match e.message with
  | some m => !m.text.isEmpty
  | none => false

/-- Truthiness of `event.message && event.message.attachments`. -/
def msgHasAttachments (e : WebhookEvent) : Bool :=
  match e.message with
  | some m => m.attachments
  | none => false

/-- Truthiness of `event.message.quick_reply` (message assumed present). -/
def msgHasQuickReply (e : WebhookEvent) : Bool :=
  match e.message with
  | some m => m.quick_reply.isSome
  | none => false

/-- messenger.js `_handleConversationResponse`: `captured` is always
`false` in the source (the interception logic is absent). -/
def handleConversationResponse (_type : String) (_e : WebhookEvent) : Bool :=
  false

/-- messenger.js `_handleMessageEvent`: bail out if captured, re-check
that `text` is truthy, then emit `message`. -/
def handleMessageEvent (e : WebhookEvent) : List String :=
  if handleConversationResponse "message" e then []
  else
    let text := match e.message with
      | some m => m.text
      | none => ""
    if text.isEmpty then [] else ["message"]

/-- messenger.js `_handleAttachmentEvent`. -/
def handleAttachmentEvent (e : WebhookEvent) : List String :=
  if handleConversationResponse "attachment" e then [] else ["attachment"]

/-- messenger.js `_handlePostbackEvent`: a derived `postback:<payload>`
event when the payload is truthy, then the generic `postback` event. -/
def handlePostbackEvent (e : WebhookEvent) : List String :=
  if handleConversationResponse "postback" e then []
  else
    let payload := e.postback.getD ""
    (if payload.isEmpty then [] else ["postback:" ++ payload]) ++ ["postback"]

/-- messenger.js `_handleQuickReplyEvent`: a derived
`quick_reply:<payload>` event when the payload is truthy, then the
generic `quick_reply` event. -/
def handleQuickReplyEvent (e : WebhookEvent) : List String :=
  if handleConversationResponse "quick_reply" e then []
  else
    let payload := (match e.message with
      | some m => m.quick_reply
      | none => none).getD ""
    (if payload.isEmpty then [] else ["quick_reply:" ++ payload]) ++ ["quick_reply"]

/-- The body of the per-event closure in the `POST /webhook` handler of
`_initWebhook`: the echo guard, then the eight-way classification
cascade. Returns the ordered list of emitted event names. -/
def processEvent (broadcastEchoes : Bool) (e : WebhookEvent) : List String :=
  if msgIsEcho e && !broadcastEchoes then []
  else if e.optin then ["authentication"]
  else if msgHasText e then
    handleMessageEvent e ++
      (if msgHasQuickReply e then handleQuickReplyEvent e else [])
  else if msgHasAttachments e then handleAttachmentEvent e
  else if e.postback.isSome then handlePostbackEvent e
  else if e.delivery then ["delivery"]
  else if e.read then ["read"]
  else if e.account_linking then ["account_linking"]
  else []

/-- One element of the webhook body's `entry` array. -/
structure WebhookEntry where
  messaging : List WebhookEvent
  deriving DecidableEq, Repr

/-- The body of a `POST /webhook` request. -/
structure WebhookBody where
  object : String
  entry : List WebhookEntry
  deriving DecidableEq, Repr

/-- The `POST /webhook` handler of `_initWebhook`: if `object` is not
`"page"` it returns early - dispatching nothing and sending no response
at all; otherwise it dispatches every messaging event of every entry in
order and then sends status 200. The first component is the HTTP status
sent (`none` when no response is sent), the second the ordered list of
emitted event names. -/
def webhookPost (broadcastEchoes : Bool) (data : WebhookBody) :
    Option Nat × List String :=
  if data.object ≠ "page" then (none, [])
  else
    (some 200,
      (data.entry.map (fun en => (en.messaging.map (processEvent broadcastEchoes)).flatten)).flatten)

/-! ## Spec-side classification rules (spec section 4.2) -/

/-- Classification of one messaging event by the precedence-ordered rules
of spec section 4.2, written from the spec's words: returns the number of
the first matching rule (1 = echo-discard, 2 = optin, 3 = message.text,
4 = message.attachments, 5 = postback, 6 = delivery, 7 = read,
8 = account_linking), or `none` when no rule matches (the spec's
catch-all "log as unknown" rule). -/
def classifyRule (broadcastEchoes : Bool) (e : WebhookEvent) : Option Nat :=
  if msgIsEcho e && !broadcastEchoes then some 1
  else if e.optin then some 2
  else if msgHasText e then some 3
  else if msgHasAttachments e then some 4
  else if e.postback.isSome then some 5
  else if e.delivery then some 6
  else if e.read then some 7
  else if e.account_linking then some 8
  else none

/-- An event matches one of the rules that emit a base event (rules 2-8;
rule 1 discards and the catch-all emits nothing). -/
def isEmittingRule (broadcastEchoes : Bool) (e : WebhookEvent) : Bool :=
  match classifyRule broadcastEchoes e with
  | some n => decide (2 ≤ n)
  | none => false

/-- The seven base event names counted by the claim (the generic
`quick_reply` event and the derived `postback:<payload>` /
`quick_reply:<payload>` sub-events are excluded). -/
def baseEventNames : List String :=
  ["authentication", "message", "attachment", "postback", "delivery",
    "read", "account_linking"]

def isBaseEvent (n : String) : Bool := decide (n ∈ baseEventNames)

def countBaseEvents (evts : List String) : Nat :=
  (evts.filter isBaseEvent).length

theorem take_of_append_eq (pre p n : String) (he : pre ++ p = n) :
    n.data.take pre.data.length = pre.data := by
  rw [← he, String.data_append]
  exact List.take_left pre.data p.data

theorem postback_colon_not_base (p : String) :
    isBaseEvent ("postback:" ++ p) = false := by
  apply decide_eq_false
  intro hmem
  simp only [baseEventNames, List.mem_cons, List.not_mem_nil, or_false] at hmem
  rcases hmem with h | h | h | h | h | h | h
  all_goals exact absurd (take_of_append_eq _ _ _ h) (by decide)

theorem quick_reply_colon_not_base (p : String) :
    isBaseEvent ("quick_reply:" ++ p) = false := by
  apply decide_eq_false
  intro hmem
  simp only [baseEventNames, List.mem_cons, List.not_mem_nil, or_false] at hmem
  rcases hmem with h | h | h | h | h | h | h
  all_goals exact absurd (take_of_append_eq _ _ _ h) (by decide)

theorem countBaseEvents_append (a b : List String) :
    countBaseEvents (a ++ b) = countBaseEvents a + countBaseEvents b := by
  unfold countBaseEvents
  rw [List.filter_append, List.length_append]

theorem handleMessageEvent_of_hasText (e : WebhookEvent)
    (h : msgHasText e = true) : handleMessageEvent e = ["message"] := by
  unfold msgHasText at h
  unfold handleMessageEvent handleConversationResponse
  cases hm : e.message with
  | none => rw [hm] at h; exact absurd h (by decide)
  | some m =>
    rw [hm] at h
    simp only [if_neg (by decide : ¬ (false = true)), hm]
    simp only [Bool.not_eq_true'] at h
    rw [if_neg (by simp [h])]

theorem countBase_handleQuickReplyEvent (e : WebhookEvent) :
    countBaseEvents (handleQuickReplyEvent e) = 0 := by
  unfold handleQuickReplyEvent handleConversationResponse countBaseEvents
  simp only [if_neg (by decide : ¬ (false = true))]
  rw [List.filter_append]
  have h2 : isBaseEvent "quick_reply" = false := by decide
  split
  · simp [h2]
  · next hp =>
    simp [List.filter_cons, h2, quick_reply_colon_not_base]

theorem countBase_handlePostbackEvent (e : WebhookEvent) :
    countBaseEvents (handlePostbackEvent e) = 1 := by
  unfold handlePostbackEvent handleConversationResponse countBaseEvents
  simp only [if_neg (by decide : ¬ (false = true))]
  rw [List.filter_append]
  have h2 : isBaseEvent "postback" = true := by decide
  split
  · simp [h2]
  · next hp =>
    simp [List.filter_cons, h2, postback_colon_not_base]

theorem countBase_singleton_auth : countBaseEvents ["authentication"] = 1 := by decide
theorem countBase_singleton_message : countBaseEvents ["message"] = 1 := by decide
theorem countBase_singleton_attachment : countBaseEvents ["attachment"] = 1 := by decide
theorem countBase_singleton_delivery : countBaseEvents ["delivery"] = 1 := by decide
theorem countBase_singleton_read : countBaseEvents ["read"] = 1 := by decide
theorem countBase_singleton_account : countBaseEvents ["account_linking"] = 1 := by decide
theorem countBase_nil : countBaseEvents [] = 0 := rfl

theorem countBase_processEvent (bE : Bool) (e : WebhookEvent) :
    countBaseEvents (processEvent bE e) =
      if isEmittingRule bE e then 1 else 0 := by
  unfold processEvent isEmittingRule classifyRule
  by_cases h1 : (msgIsEcho e && !bE) = true
  · simp [h1, countBase_nil]
  · by_cases h2 : e.optin = true
    · simp [h1, h2, countBase_singleton_auth]
    · by_cases h3 : msgHasText e = true
      · rw [if_neg h1, if_neg h2, if_pos h3]
        rw [countBaseEvents_append, handleMessageEvent_of_hasText e h3,
          countBase_singleton_message]
        by_cases h4 : msgHasQuickReply e = true
        · rw [if_pos h4, countBase_handleQuickReplyEvent]
          simp [h1, h2, h3]
        · rw [if_neg h4, countBase_nil]
          simp [h1, h2, h3]
      · by_cases h5 : msgHasAttachments e = true
        · rw [if_neg h1, if_neg h2, if_neg h3, if_pos h5]
          unfold handleAttachmentEvent handleConversationResponse
          rw [if_neg (by decide : ¬ (false = true)), countBase_singleton_attachment]
          simp [h1, h2, h3, h5]
        · by_cases h6 : e.postback.isSome = true
          · rw [if_neg h1, if_neg h2, if_neg h3, if_neg h5, if_pos h6,
              countBase_handlePostbackEvent]
            simp [h1, h2, h3, h5, h6]
          · by_cases h7 : e.delivery = true
            · rw [if_neg h1, if_neg h2, if_neg h3, if_neg h5, if_neg h6, if_pos h7,
                countBase_singleton_delivery]
              simp [h1, h2, h3, h5, h6, h7]
            · by_cases h8 : e.read = true
              · rw [if_neg h1, if_neg h2, if_neg h3, if_neg h5, if_neg h6,
                  if_neg h7, if_pos h8, countBase_singleton_read]
                simp [h1, h2, h3, h5, h6, h7, h8]
              · by_cases h9 : e.account_linking = true
                · rw [if_neg h1, if_neg h2, if_neg h3, if_neg h5, if_neg h6,
                    if_neg h7, if_neg h8, if_pos h9, countBase_singleton_account]
                  simp [h1, h2, h3, h5, h6, h7, h8, h9]
                · rw [if_neg h1, if_neg h2, if_neg h3, if_neg h5, if_neg h6,
                    if_neg h7, if_neg h8, if_neg h9, countBase_nil]
                  simp [h1, h2, h3, h5, h6, h7, h8, h9]

theorem countBase_eventList (bE : Bool) (l : List WebhookEvent) :
    countBaseEvents ((l.map (processEvent bE)).flatten) =
      (l.filter (fun e => isEmittingRule bE e)).length := by
  induction l with
  | nil => rfl
  | cons e t ih =>
    rw [List.map_cons, List.flatten_cons, countBaseEvents_append, ih,
      List.filter_cons, countBase_processEvent]
    by_cases he : isEmittingRule bE e = true
    · simp only [he, if_pos, List.length_cons]
      omega
    · simp [he]

theorem countBase_entryList (bE : Bool) (l : List WebhookEntry) :
    countBaseEvents
        ((l.map (fun en => (en.messaging.map (processEvent bE)).flatten)).flatten) =
      (((l.map (·.messaging)).flatten).filter (fun e => isEmittingRule bE e)).length := by
  induction l with
  | nil => rfl
  | cons en t ih =>
    rw [List.map_cons, List.flatten_cons, countBaseEvents_append, ih,
      List.map_cons, List.flatten_cons, List.filter_append, List.length_append,
      countBase_eventList]

theorem processEvent_of_unmatched (bE : Bool) (e : WebhookEvent)
    (h : classifyRule bE e = none) : processEvent bE e = [] := by
  unfold classifyRule at h
  unfold processEvent
  by_cases h1 : (msgIsEcho e && !bE) = true
  · rw [if_pos h1]
  · rw [if_neg h1] at h ⊢
    by_cases h2 : e.optin = true
    · rw [if_pos h2] at h; exact absurd h (by simp)
    · rw [if_neg h2] at h ⊢
      by_cases h3 : msgHasText e = true
      · rw [if_pos h3] at h; exact absurd h (by simp)
      · rw [if_neg h3] at h ⊢
        by_cases h5 : msgHasAttachments e = true
        · rw [if_pos h5] at h; exact absurd h (by simp)
        · rw [if_neg h5] at h ⊢
          by_cases h6 : e.postback.isSome = true
          · rw [if_pos h6] at h; exact absurd h (by simp)
          · rw [if_neg h6] at h ⊢
            by_cases h7 : e.delivery = true
            · rw [if_pos h7] at h; exact absurd h (by simp)
            · rw [if_neg h7] at h ⊢
              by_cases h8 : e.read = true
              · rw [if_pos h8] at h; exact absurd h (by simp)
              · rw [if_neg h8] at h ⊢
                by_cases h9 : e.account_linking = true
                · rw [if_pos h9] at h; exact absurd h (by simp)
                · rw [if_neg h9]

/-- A concrete inbound batch: one optin event, one unclassifiable event,
and one text message carrying a quick reply. -/
def sampleBatch : WebhookBody :=
  ⟨"page",
    [⟨[⟨true, none, none, false, false, false⟩,
       ⟨false, none, none, false, false, false⟩]⟩,
     ⟨[⟨false, some ⟨"hi", false, some "PAYLOAD_1", false⟩, none, false, false, false⟩]⟩]⟩

/-- Claim C1: for every inbound batch whose `object` field is `"page"`, the
number of dispatched base events (counting `authentication`, `message`,
`attachment`, `postback`, `delivery`, `read`, `account_linking`, and
excluding the derived `postback:<payload>` / `quick_reply:<payload>`
sub-events and the generic `quick_reply` companion event) equals the
number of messaging entries matched by one of the emitting
classification rules taken in the fixed precedence order echo-discard,
optin, message.text, message.attachments, postback, delivery, read,
account_linking; an entry matching no rule is dispatched zero times. -/
theorem webhook_base_event_count (bE : Bool) (data : WebhookBody)
    (h : data.object = "page") :
    countBaseEvents (webhookPost bE data).2 =
      (((data.entry.map (·.messaging)).flatten).filter
        (fun e => isEmittingRule bE e)).length
    ∧ ∀ e : WebhookEvent, classifyRule bE e = none → processEvent bE e = [] := by
  constructor
  · unfold webhookPost
    rw [if_neg (by simp [h])]
    exact countBase_entryList bE data.entry
  · exact fun e he => processEvent_of_unmatched bE e he

theorem webhook_base_event_count_witness :
    sampleBatch.object = "page" ∧
    (countBaseEvents (webhookPost false sampleBatch).2 =
      (((sampleBatch.entry.map (·.messaging)).flatten).filter
        (fun e => isEmittingRule false e)).length
     ∧ ∀ e : WebhookEvent, classifyRule false e = none → processEvent false e = []) :=
  ⟨rfl, webhook_base_event_count false sampleBatch rfl⟩

/-- Claim C3 evaluated on the code: for a `POST /webhook` body whose
`object` field is not `"page"`, the handler dispatches no event, but -
contrary to the claim - it also sends no HTTP response at all: the early
`return` skips `res.sendStatus(200)` entirely. -/
theorem webhook_nonpage_no_response :
    webhookPost false
        ⟨"checkout_update", [⟨[⟨true, none, none, false, false, false⟩]⟩]⟩ =
      (none, []) := by
  decide

/-! ## Outbound sender (messenger.js, `sendMessage`, `sendTypingIndicator`)

`sendMessage` optionally runs the typing sequence and then performs the
actual send. We model the observable behaviour as an ordered trace of
steps: sender-action HTTP calls, the `setTimeout` wait, the message-send
HTTP call, the one-shot listener registrations, and the resolution of
the returned promise.
-/

/-- The value of `options.typing`. `num n` is a JS number (`n = 0` is
falsy); `flag` is any other truthy value (e.g. `true`); `absent` covers a
missing option or a falsy one. -/
inductive TypingOpt where
  | absent
  | flag
  | num (n : Int)
  deriving DecidableEq, Repr

/-- Truthiness of `options && options.typing`. -/
def typingTruthy : TypingOpt → Bool
  | .absent => false
  | .flag => true
  | .num n => n != 0

/-- One observable step of an outbound send. -/
inductive SendStep where
  | senderAction (recipientId action : String)
  | wait (ms : Int)
  | messageSend (recipientId : String)
  | registerOnce (eventName : String)
  | resolve
  deriving DecidableEq, Repr

/-- messenger.js `sendTypingIndicator`, lines 142-153: the wait actually
passed to `setTimeout`. `timeout` is computed from the argument BEFORE
the 20000 cap; the cap then reassigns the local `milliseconds`, which is
never read again, so the uncapped value is used. The argument is
`none` for a NaN milliseconds value. -/
def sendTypingIndicatorWait (millisecondsArg : Option Int) : Int :=
  let timeout : Int := match millisecondsArg with
    | none => 0
    | some ms => ms
  let _milliseconds : Option Int :=
    if (match millisecondsArg with
        | none => false
        | some ms => decide (ms > 20000)) = true
    then some 20000 else millisecondsArg
  timeout

/-- messenger.js `sendTypingIndicator` as a step trace: `typing_on`, then
the `setTimeout` wait, then `typing_off`; the promise it returns resolves
with the `typing_off` response. -/
def sendTypingIndicatorTrace (recipientId : String) (ms : Option Int) :
    List SendStep :=
  [.senderAction recipientId "typing_on",
   .wait (sendTypingIndicatorWait ms),
   .senderAction recipientId "typing_off"]

/-- The `req` closure of `sendMessage`: the send request, then the
optional one-shot `delivery` / `read` listener registrations performed in
its `.then`. `onDelivery` / `onRead` model whether the caller passed a
function for the corresponding option. -/
def sendMessageReq (recipientId : String) (onDelivery onRead : Bool) :
    List SendStep :=
  [.messageSend recipientId] ++
    (if onDelivery then [.registerOnce "delivery"] else []) ++
    (if onRead then [.registerOnce "read"] else [])

/-- messenger.js `sendMessage`: when `options.typing` is truthy, compute
`autoTimeout` (`10ms` per character of `message.text`, `1000ms` when the
message has no truthy text), use `options.typing` itself when it is a
number, run the typing sequence, then `req`; the returned promise
resolves after `req` completes. `messageText = some t` models a message
object with a `text` field `t` (`t = ""` falsy). -/
def sendMessageTrace (recipientId : String) (messageText : Option String)
    (typing : TypingOpt) (onDelivery onRead : Bool) : List SendStep :=
  if typingTruthy typing then
    let autoTimeout : Int := match messageText with
      | some t => if t.isEmpty then 1000 else (t.length : Int) * 10
      | none => 1000
    let timeout : Int := match typing with
      | .num n => n
      | _ => autoTimeout
    sendTypingIndicatorTrace recipientId (some timeout) ++
      sendMessageReq recipientId onDelivery onRead ++ [.resolve]
  else
    sendMessageReq recipientId onDelivery onRead ++ [.resolve]

/-- A step that issues a remote HTTP call or waits: everything except the
listener registrations and the promise resolution. -/
def isRemoteOrWait : SendStep → Bool
  | .senderAction _ _ => true
  | .wait _ => true
  | .messageSend _ => true
  | .registerOnce _ => false
  | .resolve => false

/-- Claim C2 evaluated on the code: for `options.typing = 25000` (greater
than 20000) the wait passed to `setTimeout` is the uncapped 25000ms,
because `timeout` is fixed before the cap and the capped local variable
is dead. The claimed 20000ms cap does not hold. -/
theorem typing_wait_not_capped :
    sendTypingIndicatorWait (some 25000) = 25000 ∧ (25000 : Int) > 20000 := by
  constructor
  · rfl
  · decide

/-- Claim C8: a send with `options.typing = 500` produces, in strict
order, the `typing_on` action, a 500ms wait (at least the requested
500ms), the `typing_off` action and the message send - and nothing else
on the network - before the returned promise resolves as the final step
of the trace. -/
theorem sendMessage_typing500_order (recipientId : String)
    (messageText : Option String) (onDelivery onRead : Bool) :
    ((sendMessageTrace recipientId messageText (.num 500) onDelivery onRead).filter
        isRemoteOrWait) =
      [.senderAction recipientId "typing_on", .wait 500,
       .senderAction recipientId "typing_off", .messageSend recipientId]
    ∧ (sendMessageTrace recipientId messageText (.num 500) onDelivery
        onRead).getLast? = some .resolve
    ∧ (500 : Int) ≥ 500 := by
  refine ⟨?_, ?_, le_refl _⟩
  · cases onDelivery <;> cases onRead <;>
      simp [sendMessageTrace, typingTruthy, sendTypingIndicatorTrace,
        sendMessageReq, sendTypingIndicatorWait, isRemoteOrWait]
  · cases onDelivery <;> cases onRead <;>
      simp [sendMessageTrace, typingTruthy, sendTypingIndicatorTrace,
        sendMessageReq, List.getLast?]

/-! ## Network boundary (messenger.js, `sendRequest`, `getUserProfile`)

Both functions are `fetch(...).then(res => res.json()).catch(err =>
console.log(...))`. We model the outcome of the fetch-and-parse chain
explicitly and compute what the returned promise does with it.
-/

/-- The body the remote API returned, kept opaque: whatever JSON it was,
including error-shaped JSON. -/
structure Json where
  raw : String
  deriving DecidableEq, Repr

/-- Outcome of `fetch` plus `res.json()`: the transport can reject, or a
response arrives whose body parses to JSON or fails to parse. -/
inductive FetchOutcome where
  | networkError (err : String)
  | response (jsonResult : Except String Json)
  deriving Repr

/-- The settled state of a returned JS promise: resolved with a value
(`none` models `undefined`, the result of the `console.log` in the catch
handler) or rejected. -/
inductive PromiseResult (α : Type) where
  | resolved (v : Option α)
  | rejected (err : String)
  deriving DecidableEq, Repr

/-- messenger.js `sendRequest`: `fetch(...).then(res => res.json())
.catch(err => console.log(...))`. The catch handler swallows both
transport errors and body-parse errors, resolving with `undefined`; a
parsed body resolves as-is. -/
def sendRequest : FetchOutcome → PromiseResult Json
  | .networkError _ => .resolved none
  | .response (.error _) => .resolved none
  | .response (.ok j) => .resolved (some j)

/-- messenger.js `getUserProfile`: `fetch(url).then(res => res.json())
.catch(err => console.log(...))` - the same then/catch chain as
`sendRequest`. -/
def getUserProfile : FetchOutcome → PromiseResult Json
  | .networkError _ => .resolved none
  | .response (.error _) => .resolved none
  | .response (.ok j) => .resolved (some j)

/-- Claim C4: `sendRequest` and `getUserProfile` never reject - every
outcome, including transport failure and parse failure, resolves (the
error is only logged) - and a successfully parsed response resolves with
exactly the JSON the remote API returned, error-shaped or not. -/
theorem sendRequest_never_rejects :
    (∀ o : FetchOutcome, ∃ v : Option Json,
      sendRequest o = .resolved v ∧ getUserProfile o = .resolved v)
    ∧ (∀ j : Json, sendRequest (.response (.ok j)) = .resolved (some j))
    ∧ (∀ j : Json, getUserProfile (.response (.ok j)) = .resolved (some j)) := by
  refine ⟨fun o => ?_, fun j => rfl, fun j => rfl⟩
  cases o with
  | networkError e => exact ⟨none, rfl, rfl⟩
  | response r =>
    cases r with
    | error e => exact ⟨none, rfl, rfl⟩
    | ok j => exact ⟨some j, rfl, rfl⟩

/-! ## Profile cache (src/users.js)

The module keeps a mutable JS object `userProfiles` (modelled as an
association list with JS-object key semantics: lookup finds the unique
entry, insertion overwrites in place or appends), a `cacheTs` timestamp
and the on-disk JSON file. `JSON.stringify` / `JSON.parse` are platform
builtins; they are modelled as a faithful codec between the mapping and
a structured JSON value held by the file.
-/

/-- A fetched user profile (the fields requested by `getUserProfile` plus
the stamped `id`). -/
structure UserProfile where
  id : String
  first_name : String
  last_name : String
  profile_pic : String
  locale : String
  timezone : Int
  gender : String
  deriving DecidableEq, Repr

/-- The in-memory `userProfiles` object: `userId` to profile. -/
abbrev ProfileMap := List (String × UserProfile)

/-- JS object property read `m[k]`. -/
def mapLookup (m : ProfileMap) (k : String) : Option UserProfile :=
  match m with
  | [] => none
  | (k2, v) :: t => if k2 = k then some v else mapLookup t k

/-- JS object property write `m[k] = v`: overwrite in place, or append a
new key. -/
def mapInsert (m : ProfileMap) (k : String) (v : UserProfile) : ProfileMap :=
  match m with
  | [] => [(k, v)]
  | (k2, v2) :: t => if k2 = k then (k2, v) :: t else (k2, v2) :: mapInsert t k v

/-- A structured JSON value (the content of the cache file). -/
inductive JsonVal where
  | str (s : String)
  | num (n : Int)
  | obj (fields : List (String × JsonVal))
  deriving Repr

/-- `JSON.stringify` of one profile object (fields in the object's
insertion order: the six fetched fields, then the stamped `id`). -/
def profileToJson (p : UserProfile) : JsonVal :=
  .obj [("first_name", .str p.first_name), ("last_name", .str p.last_name),
        ("profile_pic", .str p.profile_pic), ("locale", .str p.locale),
        ("timezone", .num p.timezone), ("gender", .str p.gender),
        ("id", .str p.id)]

/-- `JSON.parse` of one profile object. -/
def profileOfJson : JsonVal → Option UserProfile
  | .obj [("first_name", .str fn), ("last_name", .str ln),
          ("profile_pic", .str pp), ("locale", .str lo),
          ("timezone", .num tz), ("gender", .str g), ("id", .str i)] =>
    some ⟨i, fn, ln, pp, lo, tz, g⟩
  | _ => none

/-- `JSON.stringify` of the whole mapping. -/
def mapToJson (m : ProfileMap) : JsonVal :=
  .obj (m.map (fun kv => (kv.1, profileToJson kv.2)))

def decodeFields : List (String × JsonVal) → Option ProfileMap
  | [] => some []
  | (k, j) :: t =>
    match profileOfJson j, decodeFields t with
    | some p, some m => some ((k, p) :: m)
    | _, _ => none

/-- `JSON.parse` of the whole mapping. -/
def mapOfJson : JsonVal → Option ProfileMap
  | .obj fields => decodeFields fields
  | _ => none

/-- The mutable state of the users.js module: the in-memory mapping, the
last-flush timestamp (`cacheTs`), and the cache file's content (`none`
when the file does not exist). -/
structure CacheState where
  userProfiles : ProfileMap
  cacheTs : Int
  file : Option JsonVal

/-- Observable side effects of one `getOrFetchUserProfile` call, in
order: the remote profile fetch, the synchronous flush to disk, and
the forward to the durable `bp.db.saveUser` store. -/
inductive CacheEffect where
  | fetchProfile (userId : String)
  | writeFile (content : JsonVal)
  | saveUser (profile : UserProfile)
  deriving Repr

def isFetchEffect : CacheEffect → Bool
  | .fetchProfile _ => true
  | _ => false

/-- users.js `saveUserProfiles`: `fs.writeFileSync(filename,
JSON.stringify(profiles))` - rewrite the file wholesale. -/
def saveUserProfiles (st : CacheState) (profiles : ProfileMap) : CacheState :=
  { st with file := some (mapToJson profiles) }

/-- users.js `loadUserProfiles` (run at module construction): parse the
file if it exists, otherwise start empty; `none` models the
`JSON.parse` throw on a file that does not decode to a profile map. -/
def loadUserProfiles (disk : Option JsonVal) : Option ProfileMap :=
  match disk with
  | none => some []
  | some j => mapOfJson j

/-- users.js `getOrFetchUserProfile`: cache hit returns the memoized
profile with no effect; a miss fetches, stamps `id = userId`, inserts,
flushes if at least 10000ms elapsed since `cacheTs` (resetting
`cacheTs`), forwards to `bp.db.saveUser`, and resolves with the full
stamped profile. `fetch` gives the remote fetch's result and `now` the
value of `new Date()`. Returns (resolved value, new state, effects). -/
def getOrFetchUserProfile (fetch : String → UserProfile) (now : Int)
    (st : CacheState) (userId : String) :
    UserProfile × CacheState × List CacheEffect :=
  match mapLookup st.userProfiles userId with
  | some p => (p, st, [])
  | none =>
    let profile := { fetch userId with id := userId }
    let profiles := mapInsert st.userProfiles userId profile
    if now - st.cacheTs ≥ 10000 then
      (profile,
        { userProfiles := profiles, cacheTs := now,
          file := some (mapToJson profiles) },
        [.fetchProfile userId, .writeFile (mapToJson profiles),
          .saveUser profile])
    else
      (profile, { st with userProfiles := profiles },
        [.fetchProfile userId, .saveUser profile])

theorem mapLookup_mapInsert (m : ProfileMap) (k : String) (v : UserProfile) :
    mapLookup (mapInsert m k v) k = some v := by
  induction m with
  | nil => simp [mapInsert, mapLookup]
  | cons kv t ih =>
    obtain ⟨k2, v2⟩ := kv
    by_cases hk : k2 = k
    · simp [mapInsert, mapLookup, hk]
    · simp [mapInsert, mapLookup, hk, ih]

theorem profile_roundtrip (p : UserProfile) :
    profileOfJson (profileToJson p) = some p := rfl

theorem map_roundtrip (m : ProfileMap) : mapOfJson (mapToJson m) = some m := by
  show decodeFields (m.map (fun kv => (kv.1, profileToJson kv.2))) = some m
  induction m with
  | nil => rfl
  | cons kv t ih =>
    obtain ⟨k, v⟩ := kv
    simp [decodeFields, profile_roundtrip, ih]

/-- Claim C6: starting from a state where `userId` is not cached, two
sequential `getOrFetchUserProfile` calls for the same id perform exactly
one remote fetch; the first call fetches, stamps `id = userId` and
inserts; the second call performs no effect at all (in particular no
network call) and resolves with the memoized profile. -/
theorem getOrFetch_twice_one_fetch (fetch : String → UserProfile)
    (now1 now2 : Int) (st : CacheState) (userId : String)
    (h : mapLookup st.userProfiles userId = none) :
    ((getOrFetchUserProfile fetch now1 st userId).2.2 ++
        ((getOrFetchUserProfile fetch now2
          (getOrFetchUserProfile fetch now1 st userId).2.1 userId).2.2)).filter
        isFetchEffect = [.fetchProfile userId]
    ∧ (getOrFetchUserProfile fetch now2
        (getOrFetchUserProfile fetch now1 st userId).2.1 userId).2.2 = []
    ∧ (getOrFetchUserProfile fetch now1 st userId).1 =
        { fetch userId with id := userId }
    ∧ (getOrFetchUserProfile fetch now2
        (getOrFetchUserProfile fetch now1 st userId).2.1 userId).1 =
        (getOrFetchUserProfile fetch now1 st userId).1 := by
  have hmem : mapLookup
      (mapInsert st.userProfiles userId { fetch userId with id := userId })
      userId = some { fetch userId with id := userId } :=
    mapLookup_mapInsert st.userProfiles userId _
  unfold getOrFetchUserProfile
  rw [h]
  by_cases hf : now1 - st.cacheTs ≥ 10000
  · rw [if_pos hf]
    simp [hmem, isFetchEffect]
  · rw [if_neg hf]
    simp [hmem, isFetchEffect]

/-- The profile used by the concrete cache witnesses. -/
def sampleFetched : UserProfile :=
  ⟨"", "Ada", "Lovelace", "http://pic", "en_US", -5, "female"⟩

theorem getOrFetch_twice_one_fetch_witness :
    mapLookup (CacheState.mk [] 0 none).userProfiles "user-42" = none
    ∧ (((getOrFetchUserProfile (fun _ => sampleFetched) 20000
          (CacheState.mk [] 0 none) "user-42").2.2 ++
        ((getOrFetchUserProfile (fun _ => sampleFetched) 20001
          (getOrFetchUserProfile (fun _ => sampleFetched) 20000
            (CacheState.mk [] 0 none) "user-42").2.1 "user-42").2.2)).filter
        isFetchEffect = [.fetchProfile "user-42"]
    ∧ (getOrFetchUserProfile (fun _ => sampleFetched) 20001
        (getOrFetchUserProfile (fun _ => sampleFetched) 20000
          (CacheState.mk [] 0 none) "user-42").2.1 "user-42").2.2 = []
    ∧ (getOrFetchUserProfile (fun _ => sampleFetched) 20000
        (CacheState.mk [] 0 none) "user-42").1 =
        { sampleFetched with id := "user-42" }
    ∧ (getOrFetchUserProfile (fun _ => sampleFetched) 20001
        (getOrFetchUserProfile (fun _ => sampleFetched) 20000
          (CacheState.mk [] 0 none) "user-42").2.1 "user-42").1 =
        (getOrFetchUserProfile (fun _ => sampleFetched) 20000
          (CacheState.mk [] 0 none) "user-42").1) :=
  ⟨rfl, getOrFetch_twice_one_fetch (fun _ => sampleFetched) 20000 20001
    (CacheState.mk [] 0 none) "user-42" rfl⟩

/-- Claim C7: a flush writes to disk exactly the serialization of the full
in-memory mapping at flush time, and reloading that file into a fresh
cache instance reproduces the pre-flush mapping. -/
theorem flush_roundtrip (st : CacheState) (m : ProfileMap) :
    (saveUserProfiles st m).file = some (mapToJson m)
    ∧ loadUserProfiles (saveUserProfiles st m).file = some m := by
  refine ⟨rfl, ?_⟩
  show mapOfJson (mapToJson m) = some m
  exact map_roundtrip m
